import Mathlib

/-!
A shallow embedding of molert (`src/main.go`), a minimal alert relay over a
Redis store, together with theorems about its registry, notifier and scan
logic.

Modelling choices:

* The Redis store is modelled explicitly: the `alert_urls` set is a list of
  strings (`SADD` keeps it duplicate-free), each alert key maps to an optional
  hash holding the two fields the program uses (`alert`, `silence`), and TTLs
  are a partial map from keys to remaining seconds.  `TTL key` follows Redis:
  `-2` when the key does not exist, `-1` when it has no expiry, the remaining
  seconds otherwise.  `EXPIRE` with a non-positive argument deletes the key,
  as Redis does.  Store commands are modelled on their success path: the
  radix client's error returns correspond to transport failures, which a
  shallow embedding of a reliable store does not produce (the claims about
  behaviour are all conditioned on the store operations succeeding).
* `json.Marshal` / `json.Unmarshal` of `Alert` values are opaque external
  functions, passed in as parameters `marshal : Alert → String` and
  `parse : String → Option Alert`; `radix`'s conversion of a Redis nil bulk
  string to the empty Go string in `List()` is modelled by `Option.getD ""`.
* `time.Time` fields are modelled as unix seconds (`Int`), so `.Unix()` is
  the identity; Go's `strings.Split` on `","` and `strings.TrimSpace` are
  modelled by explicit recursion over character lists (`splitComma`,
  `trimSpace`), matching Go's semantics — in particular
  `splitComma "" = [""]`, exactly as `strings.Split("", ",")` yields one
  empty entry.
-/

namespace Molert

/-- Pointwise update of a map, used for hash-field writes and TTL writes. -/
def upd {α : Type} (f : String → α) (key : String) (v : α) : String → α :=
  fun k => if k = key then v else f k

/-- The two hash fields molert stores per alert key (`alert`, `silence`). -/
structure HashVal where
  alert : Option String
  silence : Option String
deriving DecidableEq, Repr

/-- The Redis state the program touches: the `alert_urls` set, the per-key
hashes, and the per-key TTLs. -/
structure Store where
  alert_urls : List String
  hashes : String → Option HashVal
  ttls : String → Option Int

/-- SADD alert_urls member (`src/main.go:267`): add if absent. -/
def Store.sadd (s : Store) (m : String) : Store :=
  if m ∈ s.alert_urls then s else { s with alert_urls := s.alert_urls ++ [m] }

/-- SREM alert_urls member (`src/main.go:177`). -/
def Store.srem (s : Store) (m : String) : Store :=
  { s with alert_urls := s.alert_urls.filter (fun u => u ≠ m) }

/-- HGET key silence (`src/main.go:274`); `none` models radix's error on a
nil reply. -/
def Store.hgetSilence (s : Store) (key : String) : Option String :=
  (s.hashes key).bind (fun h => h.silence)

/-- HMGET key alert silence (`src/main.go:167`): radix's `List()` turns nil
replies into empty strings. -/
def Store.hmget2 (s : Store) (key : String) : String × String :=
  match s.hashes key with
  | none => ("", "")
  | some h => (h.alert.getD "", h.silence.getD "")

/-- HSET key silence v (`src/main.go:314`): creates the hash if absent. -/
def Store.hsetSilence (s : Store) (key v : String) : Store :=
  { s with
    hashes := upd s.hashes key
      (some (match s.hashes key with
             | none => { alert := none, silence := some v }
             | some h => { h with silence := some v })) }

/-- HMSET key alert a silence v (`src/main.go:281`): writes both fields. -/
def Store.hmsetAlertSilence (s : Store) (key a v : String) : Store :=
  { s with hashes := upd s.hashes key (some { alert := some a, silence := some v }) }

/-- TTL key (`src/main.go:191,294`): Redis returns -2 for a missing key,
-1 for a key without expiry, the remaining seconds otherwise. -/
def Store.ttlCmd (s : Store) (key : String) : Int :=
  match s.hashes key with
  | none => -2
  | some _ =>
    match s.ttls key with
    | none => -1
    | some t => t

/-- EXPIRE key secs (`src/main.go:301,329,334`): no-op on a missing key;
a non-positive ttl deletes the key, as in Redis. -/
def Store.expire (s : Store) (key : String) (secs : Int) : Store :=
  match s.hashes key with
  | none => s
  | some _ =>
    if secs ≤ 0 then
      { s with hashes := upd s.hashes key none, ttls := upd s.ttls key none }
    else
      { s with ttls := upd s.ttls key (some secs) }

/-- PERSIST key (`src/main.go:324`): drop any expiry. -/
def Store.persist (s : Store) (key : String) : Store :=
  { s with ttls := upd s.ttls key none }

/-- The configuration flags the modelled code paths read
(`src/main.go:22,25,26`). -/
structure Config where
  expiration : Int
  silenceDuration : Int
  externalURL : String

/-- `Alert` (`src/main.go:30`): label and annotation maps are association
lists, timestamps are unix seconds. -/
structure Alert where
  Labels : List (String × String)
  Annotations : List (String × String)
  StartsAt : Int
  EndsAt : Int
  GeneratorURL : String
deriving DecidableEq, Repr

/-- `Silence` (`src/main.go:70`). -/
structure Silence where
  URL : String
  Duration : Int
deriving DecidableEq, Repr

/-- `AlertStatus` (`src/main.go:75`): ttl -1 means silenced forever, 0 not
silenced, positive means silenced that many seconds. -/
structure AlertStatus where
  alert : Alert
  TTL : Int
deriving DecidableEq, Repr

/-- `Field` (`src/main.go:38`). -/
structure SlackField where
  Title : String := ""
  Value : String := ""
  Short : Bool := false
deriving DecidableEq, Repr

/-- `Attachment` (`src/main.go:44`). -/
structure Attachment where
  Fallback : String := ""
  Color : String := ""
  Pretext : String := ""
  AuthorName : String := ""
  AuthorLink : String := ""
  Title : String := ""
  TitleLink : String := ""
  Text : String := ""
  Fields : List SlackField := []
  ImageURL : String := ""
  ThumbURL : String := ""
  Footer : String := ""
  FooterIcon : String := ""
  Timestamp : Int := 0
deriving DecidableEq, Repr

/-- `Payload` (`src/main.go:61`). -/
structure Payload where
  Text : String := ""
  Channel : String := ""
  Username : String := ""
  IconEmoji : String := ""
  IconURL : String := ""
  Attachments : List Attachment := []
deriving DecidableEq, Repr

/-- Go's `unicode.IsSpace` restricted to the ASCII whitespace characters. -/
def isGoSpace (c : Char) : Bool :=
  c = ' ' || c = '\t' || c = '\n' || c = '\x0b' || c = '\x0c' || c = '\r'

/-- `strings.TrimSpace` on a character list: drop whitespace from both
ends. -/
def trimSpaceList (cs : List Char) : List Char :=
  ((cs.dropWhile isGoSpace).reverse.dropWhile isGoSpace).reverse

/-- `strings.TrimSpace`. -/
def trimSpace (s : String) : String := String.mk (trimSpaceList s.data)

/-- `strings.Split` with separator "," on a character list; the empty input
yields one empty entry, as in Go. -/
def splitCommaList (cs : List Char) : List (List Char) :=
  match cs with
  | [] => [[]]
  | c :: rest =>
    if c = ',' then [] :: splitCommaList rest
    else
      match splitCommaList rest with
      | [] => [[c]]
      | h :: t => (c :: h) :: t

/-- `strings.Split(s, ",")`. -/
def splitComma (s : String) : List String := (splitCommaList s.data).map String.mk

/-- `json.Marshal` of a `Silence` value (`src/main.go:217`): `duration` has
`omitempty`, so a zero duration is dropped.  String escaping inside the URL
is not modelled. -/
def marshalSilence (sil : Silence) : String :=
  if sil.Duration = 0 then
    "\x7b\"url\":\"" ++ sil.URL ++ "\"\x7d"
  else
    "\x7b\"url\":\"" ++ sil.URL ++ "\",\"duration\":" ++ toString sil.Duration ++ "\x7d"

/-- `Alert.toPayloads` (`src/main.go:201`): build one attachment, then fan
out one payload per comma-separated entry of `labels.users` (recipient
prefixed with `@`) and per entry of `labels.channels` (no prefix). -/
def Alert.toPayloads (cfg : Config) (a : Alert) : List Payload :=
  let attachment : Attachment :=
    { Color := "warning"
      TitleLink := a.GeneratorURL
      Timestamp := a.StartsAt
      Title := (a.Annotations.lookup "summary").getD ""
      Text := (a.Annotations.lookup "description").getD ""
      Footer := (a.Labels.lookup "env").getD "" }
  let silenceCmd : String :=
    "`curl -XPOST " ++ cfg.externalURL ++ "/silence -H 'Content-Type: application/json' -d '"
      ++ marshalSilence { URL := a.GeneratorURL, Duration := cfg.silenceDuration } ++ "'`"
  let userPayloads : List Payload :=
    match a.Labels.lookup "users" with
    | none => []
    | some users =>
      (splitComma (trimSpace users)).map fun user =>
        { Username := "alert-bot"
          IconEmoji := ":loudspeaker:"
          Text := silenceCmd
          Attachments := [attachment]
          Channel := "@" ++ trimSpace user }
  let channelPayloads : List Payload :=
    match a.Labels.lookup "channels" with
    | none => []
    | some channels =>
      (splitComma (trimSpace channels)).map fun ch =>
        { Username := "alert-bot"
          IconEmoji := ":loudspeaker:"
          Text := silenceCmd
          Attachments := [attachment]
          Channel := trimSpace ch }
  userPayloads ++ channelPayloads

/-- `Alert.save` (`src/main.go:261`): SADD the key; if the key is currently
silenced, stop; otherwise HMSET payload and `silence=false`, and set the
freshness expiry only when no TTL is currently running (`TTL < 0`). -/
def Alert.save (marshal : Alert → String) (cfg : Config) (a : Alert) (s0 : Store) : Store :=
  let data := marshal a
  let s1 := s0.sadd a.GeneratorURL
  match s1.hgetSilence a.GeneratorURL with
  | some r =>
    if r = "true" then s1
    else
      let s2 := s1.hmsetAlertSilence a.GeneratorURL data "false"
      if s2.ttlCmd a.GeneratorURL ≥ 0 then s2
      else s2.expire a.GeneratorURL cfg.expiration
  | none =>
    let s2 := s1.hmsetAlertSilence a.GeneratorURL data "false"
    if s2.ttlCmd a.GeneratorURL ≥ 0 then s2
    else s2.expire a.GeneratorURL cfg.expiration

/-- `Silence.silence` (`src/main.go:313`): HSET `silence=true`, then by the
sign of the duration either PERSIST, EXPIRE with the default silence
duration, or EXPIRE with the given duration. -/
def Silence.silence (cfg : Config) (sil : Silence) (s0 : Store) : Store :=
  let s1 := s0.hsetSilence sil.URL "true"
  if sil.Duration < 0 then s1.persist sil.URL
  else if sil.Duration = 0 then s1.expire sil.URL cfg.silenceDuration
  else s1.expire sil.URL sil.Duration

/-- `silenceHandler` (`src/main.go:143`): a body that fails to unmarshal is
logged, but `s.silence()` is still called on the zero-valued `Silence`
record; the handler always answers with "ok". -/
def silenceHandler (parseSilence : String → Option Silence) (cfg : Config)
    (body : String) (s : Store) : Store × String :=
  let sil := match parseSilence body with
    | some x => x
    | none => { URL := "", Duration := 0 }
  (sil.silence cfg s, "ok")

/-- The body of the `getAlerts` loop for one url (`src/main.go:166`): an
empty payload prunes the key from `alert_urls`, an unparseable payload is
skipped, a non-silenced entry gets ttl 0, a silenced one the remaining TTL. -/
def processUrl (parse : String → Option Alert) (s : Store) (url : String) :
    Store × Option AlertStatus :=
  let r := s.hmget2 url
  if r.1 = "" then (s.srem url, none)
  else
    match parse r.1 with
    | none => (s, none)
    | some a =>
      if r.2 ≠ "true" then (s, some { alert := a, TTL := 0 })
      else (s, some { alert := a, TTL := s.ttlCmd url })

/-- `getAlerts` restricted to an explicit url list; `getAlerts` itself runs
it on the SMEMBERS snapshot of `alert_urls`. -/
def getAlertsFrom (parse : String → Option Alert) (urls : List String) (s : Store) :
    Store × List AlertStatus :=
  match urls with
  | [] => (s, [])
  | url :: rest =>
    let p := processUrl parse s url
    let q := getAlertsFrom parse rest p.1
    (q.1, p.2.toList ++ q.2)

/-- `getAlerts` (`src/main.go:158`). -/
def getAlerts (parse : String → Option Alert) (s : Store) : Store × List AlertStatus :=
  getAlertsFrom parse s.alert_urls s

/-- `alert` (`src/main.go:109`), one scheduler tick: list the registry and
collect, in order, the payloads sent for the entries with ttl 0. -/
def alertTick (parse : String → Option Alert) (cfg : Config) (s : Store) :
    Store × List Payload :=
  let p := getAlerts parse s
  (p.1, p.2.foldl (fun acc st => if st.TTL = 0 then acc ++ st.alert.toPayloads cfg else acc) [])

/-- A sample configuration (the flag defaults), used by witnesses. -/
def sampleCfg : Config :=
  { expiration := 180, silenceDuration := 3600, externalURL := "http://molert" }

/-- The empty store, used by witnesses. -/
def emptyStore : Store :=
  { alert_urls := [], hashes := fun _ => none, ttls := fun _ => none }

/-- A sample alert, used by witnesses. -/
def sampleAlert : Alert :=
  { Labels := [("users", " bob , alice "), ("channels", "ops, releases")]
    Annotations := [("summary", "disk full")]
    StartsAt := 5, EndsAt := 9, GeneratorURL := "u1" }

/-- A sample marshaller for witnesses: an injective stand-in for
`json.Marshal`. -/
def sampleMarshal : Alert → String := fun a => "json:" ++ a.GeneratorURL

/-- A sample parser for witnesses, a partial inverse of `sampleMarshal`. -/
def sampleParse : String → Option Alert :=
  fun str => if str = "json:u1" then some sampleAlert else none

theorem sadd_hashes (s : Store) (m : String) : (s.sadd m).hashes = s.hashes := by
  unfold Store.sadd; split <;> rfl

theorem sadd_ttls (s : Store) (m : String) : (s.sadd m).ttls = s.ttls := by
  unfold Store.sadd; split <;> rfl

theorem sadd_mem (s : Store) (m u : String) :
    u ∈ (s.sadd m).alert_urls ↔ (u ∈ s.alert_urls ∨ u = m) := by
  unfold Store.sadd
  split
  · rename_i hm
    exact ⟨Or.inl, fun h => h.elim id (fun e => e ▸ hm)⟩
  · simp [List.mem_append]

theorem hmset_hashes_self (s : Store) (key a v : String) :
    (s.hmsetAlertSilence key a v).hashes key = some { alert := some a, silence := some v } := by
  simp [Store.hmsetAlertSilence, upd]

theorem hmset_ttls (s : Store) (key a v : String) :
    (s.hmsetAlertSilence key a v).ttls = s.ttls := rfl

theorem hset_hgetSilence_self (s : Store) (key v : String) :
    (s.hsetSilence key v).hgetSilence key = some v := by
  unfold Store.hsetSilence Store.hgetSilence
  simp only [upd, if_pos rfl]
  cases s.hashes key <;> rfl

theorem hset_hashes_isSome (s : Store) (key v : String) :
    ((s.hsetSilence key v).hashes key).isSome := by
  unfold Store.hsetSilence
  simp only [upd, if_pos rfl]
  rfl

theorem persist_hashes (s : Store) (key : String) : (s.persist key).hashes = s.hashes := rfl

theorem persist_ttls_self (s : Store) (key : String) : (s.persist key).ttls key = none := by
  simp [Store.persist, upd]

theorem expire_pos_hashes (s : Store) (key : String) (secs : Int) (hpos : 0 < secs) :
    (s.expire key secs).hashes = s.hashes := by
  unfold Store.expire
  cases s.hashes key with
  | none => rfl
  | some h => simp [not_le.mpr hpos]

theorem expire_pos_ttls_self (s : Store) (key : String) (secs : Int) (hpos : 0 < secs)
    (hk : (s.hashes key).isSome) : (s.expire key secs).ttls key = some secs := by
  unfold Store.expire
  cases hh : s.hashes key with
  | none => rw [hh] at hk; exact absurd hk (by simp)
  | some h => simp [not_le.mpr hpos, upd]

theorem ttlCmd_of_some (s : Store) (key : String) (hk : (s.hashes key).isSome) :
    s.ttlCmd key = (match s.ttls key with | none => -1 | some t => t) := by
  unfold Store.ttlCmd
  cases hh : s.hashes key with
  | none => rw [hh] at hk; exact absurd hk (by simp)
  | some h => rfl

/-- C1: `Alert.save` on a key currently stored with silence flag "true"
leaves every hash and every TTL in the store unchanged; its only effect is
that the key is (re-)added to the `alert_urls` set. -/
theorem save_silenced_frame (marshal : Alert → String) (cfg : Config) (a : Alert) (s : Store)
    (h : s.hgetSilence a.GeneratorURL = some "true") :
    (a.save marshal cfg s).hashes = s.hashes ∧
    (a.save marshal cfg s).ttls = s.ttls ∧
    ∀ u, u ∈ (a.save marshal cfg s).alert_urls ↔ (u ∈ s.alert_urls ∨ u = a.GeneratorURL) := by
  have hg : (s.sadd a.GeneratorURL).hgetSilence a.GeneratorURL = some "true" := by
    unfold Store.hgetSilence
    rw [sadd_hashes]
    exact h
  unfold Alert.save
  simp only [hg, if_pos rfl]
  exact ⟨sadd_hashes s _, sadd_ttls s _, fun u => sadd_mem s _ u⟩

/-- C1 witness: a silenced key in a one-entry store. -/
theorem save_silenced_frame_witness :
    (Store.hgetSilence
        { alert_urls := ["u1"],
          hashes := fun k => if k = "u1" then some { alert := some "json:u1", silence := some "true" } else none,
          ttls := fun k => if k = "u1" then some 42 else none } "u1" = some "true") ∧
    (sampleAlert.save sampleMarshal sampleCfg
        { alert_urls := ["u1"],
          hashes := fun k => if k = "u1" then some { alert := some "json:u1", silence := some "true" } else none,
          ttls := fun k => if k = "u1" then some 42 else none }).ttls "u1" = some 42 := by
  refine ⟨by decide, ?_⟩
  have h := save_silenced_frame sampleMarshal sampleCfg sampleAlert
    { alert_urls := ["u1"],
      hashes := fun k => if k = "u1" then some { alert := some "json:u1", silence := some "true" } else none,
      ttls := fun k => if k = "u1" then some 42 else none } (by decide)
  rw [h.2.1]
  decide

/-- C2: `Alert.save` on a key absent from the store writes the marshalled
payload with silence flag "false" and sets the TTL to the configured
expiration; and on a key whose TTL is already running (TTL >= 0) it never
changes that TTL. -/
theorem save_fresh_and_keep_ttl (marshal : Alert → String) (cfg : Config) (a : Alert) (s : Store) :
    (s.hashes a.GeneratorURL = none → s.ttls a.GeneratorURL = none → 0 < cfg.expiration →
      (a.save marshal cfg s).hashes a.GeneratorURL
          = some { alert := some (marshal a), silence := some "false" } ∧
      (a.save marshal cfg s).ttlCmd a.GeneratorURL = cfg.expiration) ∧
    (0 ≤ s.ttlCmd a.GeneratorURL →
      (a.save marshal cfg s).ttlCmd a.GeneratorURL = s.ttlCmd a.GeneratorURL) := by
  constructor
  · intro habs httl hexp
    have hg : (s.sadd a.GeneratorURL).hgetSilence a.GeneratorURL = none := by
      unfold Store.hgetSilence
      rw [sadd_hashes, habs]
      rfl
    have h2h : ((s.sadd a.GeneratorURL).hmsetAlertSilence a.GeneratorURL (marshal a) "false").hashes
        a.GeneratorURL = some { alert := some (marshal a), silence := some "false" } :=
      hmset_hashes_self _ _ _ _
    have h2t : ((s.sadd a.GeneratorURL).hmsetAlertSilence a.GeneratorURL (marshal a) "false").ttls
        a.GeneratorURL = none := by
      rw [hmset_ttls, sadd_ttls]; exact httl
    have h2ttl : ((s.sadd a.GeneratorURL).hmsetAlertSilence a.GeneratorURL (marshal a) "false").ttlCmd
        a.GeneratorURL = -1 := by
      rw [ttlCmd_of_some _ _ (by rw [h2h]; rfl), h2t]
    unfold Alert.save
    simp only [hg, h2ttl]
    norm_num
    constructor
    · rw [congrFun (expire_pos_hashes _ a.GeneratorURL cfg.expiration hexp) a.GeneratorURL, h2h]
    · rw [ttlCmd_of_some _ a.GeneratorURL
        (by rw [congrFun (expire_pos_hashes _ a.GeneratorURL cfg.expiration hexp) a.GeneratorURL,
                h2h]; rfl),
        expire_pos_ttls_self _ a.GeneratorURL cfg.expiration hexp (by rw [h2h]; rfl)]
  · intro hrun
    have hsome : (s.hashes a.GeneratorURL).isSome := by
      unfold Store.ttlCmd at hrun
      cases hh : s.hashes a.GeneratorURL
      · rw [hh] at hrun; norm_num at hrun
      · rfl
    obtain ⟨hv, hhv⟩ := Option.isSome_iff_exists.mp hsome
    have htv : ∃ t, s.ttls a.GeneratorURL = some t ∧ 0 ≤ t := by
      unfold Store.ttlCmd at hrun
      rw [hhv] at hrun
      cases ht : s.ttls a.GeneratorURL
      · rw [ht] at hrun; norm_num at hrun
      · rw [ht] at hrun; exact ⟨_, rfl, hrun⟩
    obtain ⟨t, ht, htpos⟩ := htv
    have hcmd : s.ttlCmd a.GeneratorURL = t := by
      unfold Store.ttlCmd; rw [hhv, ht]
    rw [hcmd]
    have hg : (s.sadd a.GeneratorURL).hgetSilence a.GeneratorURL = hv.silence := by
      unfold Store.hgetSilence; rw [sadd_hashes, hhv]; rfl
    have h2ttl : ((s.sadd a.GeneratorURL).hmsetAlertSilence a.GeneratorURL (marshal a) "false").ttlCmd
        a.GeneratorURL = t := by
      rw [ttlCmd_of_some _ _ (by rw [hmset_hashes_self]; rfl)]
      rw [hmset_ttls, sadd_ttls, ht]
    have hs1ttl : (s.sadd a.GeneratorURL).ttlCmd a.GeneratorURL = t := by
      unfold Store.ttlCmd
      rw [sadd_hashes, sadd_ttls, hhv, ht]
    unfold Alert.save
    cases hsil : hv.silence with
    | none =>
      rw [hsil] at hg
      simp only [hg, h2ttl, if_pos htpos]
    | some r =>
      rw [hsil] at hg
      by_cases hr : r = "true"
      · simp only [hg, hr, if_pos rfl]
        exact hs1ttl
      · simp only [hg, if_neg hr, h2ttl, if_pos htpos]

/-- C2 witness: a fresh key gets payload, silence "false" and the configured
expiration; a key with a running TTL keeps it. -/
theorem save_fresh_and_keep_ttl_witness :
    ((sampleAlert.save sampleMarshal sampleCfg emptyStore).hashes "u1"
        = some { alert := some "json:u1", silence := some "false" } ∧
      (sampleAlert.save sampleMarshal sampleCfg emptyStore).ttlCmd "u1" = 180) ∧
    (sampleAlert.save sampleMarshal sampleCfg
        { alert_urls := ["u1"],
          hashes := fun k => if k = "u1" then some { alert := some "old", silence := some "false" } else none,
          ttls := fun k => if k = "u1" then some 7 else none }).ttlCmd "u1"
      = Store.ttlCmd
        { alert_urls := ["u1"],
          hashes := fun k => if k = "u1" then some { alert := some "old", silence := some "false" } else none,
          ttls := fun k => if k = "u1" then some 7 else none } "u1" := by
  constructor
  · exact (save_fresh_and_keep_ttl sampleMarshal sampleCfg sampleAlert emptyStore).1
      rfl rfl (by decide)
  · exact (save_fresh_and_keep_ttl sampleMarshal sampleCfg sampleAlert
      { alert_urls := ["u1"],
        hashes := fun k => if k = "u1" then some { alert := some "old", silence := some "false" } else none,
        ttls := fun k => if k = "u1" then some 7 else none }).2 (by decide)

/-- C3: `Silence.silence` sets the key's silence flag to "true"; a negative
duration removes any TTL, a zero duration sets the TTL to the configured
default silence duration, a positive duration sets the TTL to that value. -/
theorem silence_flag_and_ttl (cfg : Config) (sil : Silence) (s : Store)
    (hpos : 0 < cfg.silenceDuration) :
    (sil.silence cfg s).hgetSilence sil.URL = some "true" ∧
    (sil.Duration < 0 → (sil.silence cfg s).ttls sil.URL = none) ∧
    (sil.Duration = 0 → (sil.silence cfg s).ttlCmd sil.URL = cfg.silenceDuration) ∧
    (0 < sil.Duration → (sil.silence cfg s).ttlCmd sil.URL = sil.Duration) := by
  set s1 := s.hsetSilence sil.URL "true" with hs1
  have hflag : s1.hgetSilence sil.URL = some "true" := hset_hgetSilence_self s _ _
  have hsome : (s1.hashes sil.URL).isSome := hset_hashes_isSome s _ _
  rcases lt_trichotomy sil.Duration 0 with hd | hd | hd
  · unfold Silence.silence
    rw [if_pos hd, ← hs1]
    refine ⟨hflag, fun _ => persist_ttls_self s1 _, fun h0 => absurd h0 (by omega), fun h0 => absurd h0 (by omega)⟩
  · unfold Silence.silence
    rw [if_neg (by omega), if_pos hd, ← hs1]
    have hhash : (s1.expire sil.URL cfg.silenceDuration).hashes = s1.hashes :=
      expire_pos_hashes s1 _ _ hpos
    refine ⟨?_, fun hneg => absurd hneg (by omega), fun _ => ?_, fun hneg => absurd hneg (by omega)⟩
    · unfold Store.hgetSilence
      rw [congrFun hhash]
      exact hflag
    · rw [ttlCmd_of_some _ _ (by rw [congrFun hhash]; exact hsome),
        expire_pos_ttls_self s1 _ _ hpos hsome]
  · unfold Silence.silence
    rw [if_neg (by omega), if_neg (by omega), ← hs1]
    have hhash : (s1.expire sil.URL sil.Duration).hashes = s1.hashes :=
      expire_pos_hashes s1 _ _ hd
    refine ⟨?_, fun hneg => absurd hneg (by omega), fun h0 => absurd h0 (by omega), fun _ => ?_⟩
    · unfold Store.hgetSilence
      rw [congrFun hhash]
      exact hflag
    · rw [ttlCmd_of_some _ _ (by rw [congrFun hhash]; exact hsome),
        expire_pos_ttls_self s1 _ _ hd hsome]

/-- C3 witness: the three duration regimes on a concrete store. -/
theorem silence_flag_and_ttl_witness :
    ((Silence.mk "u1" (-1)).silence sampleCfg emptyStore).ttls "u1" = none ∧
    ((Silence.mk "u1" 0).silence sampleCfg emptyStore).ttlCmd "u1" = 3600 ∧
    ((Silence.mk "u1" 5).silence sampleCfg emptyStore).ttlCmd "u1" = 5 ∧
    ((Silence.mk "u1" 5).silence sampleCfg emptyStore).hgetSilence "u1" = some "true" := by
  refine ⟨?_, ?_, ?_, ?_⟩
  · exact (silence_flag_and_ttl sampleCfg (Silence.mk "u1" (-1)) emptyStore (by decide)).2.1
      (by decide)
  · exact (silence_flag_and_ttl sampleCfg (Silence.mk "u1" 0) emptyStore (by decide)).2.2.1 rfl
  · exact (silence_flag_and_ttl sampleCfg (Silence.mk "u1" 5) emptyStore (by decide)).2.2.2
      (by decide)
  · exact (silence_flag_and_ttl sampleCfg (Silence.mk "u1" 5) emptyStore (by decide)).1

/-- C7 counterexample: a body that fails to unmarshal still mutates the
store — the handler calls `silence` on the zero-valued record, creating a
silenced hash at key "". -/
theorem silenceHandler_badBody_mutates :
    (silenceHandler (fun _ => none) sampleCfg "notjson" emptyStore).1.hashes ""
      ≠ emptyStore.hashes "" := by
  decide

/-- C7 amended: when the body fails to unmarshal, the handler still invokes
`silence` with the zero-valued record (key "", duration 0) — silencing key
"" with the default duration — and responds "ok"; it is not a store no-op. -/
theorem silenceHandler_badBody (P : String → Option Silence) (cfg : Config)
    (body : String) (s : Store) (h : P body = none) :
    silenceHandler P cfg body s = ((Silence.mk "" 0).silence cfg s, "ok") := by
  unfold silenceHandler
  rw [h]

/-- C7 amended witness. -/
theorem silenceHandler_badBody_witness :
    silenceHandler (fun _ => none) sampleCfg "notjson" emptyStore
      = ((Silence.mk "" 0).silence sampleCfg emptyStore, "ok") :=
  silenceHandler_badBody (fun _ => none) sampleCfg "notjson" emptyStore rfl

/-- C8: an alert with neither a `users` nor a `channels` label produces no
payloads; otherwise the recipients are, in order, one "@"-prefixed trimmed
entry per comma-separated entry of `labels.users`, then one trimmed entry
per comma-separated entry of `labels.channels`. -/
theorem toPayloads_recipients (cfg : Config) (a : Alert) :
    (a.Labels.lookup "users" = none → a.Labels.lookup "channels" = none →
      a.toPayloads cfg = []) ∧
    (a.toPayloads cfg).map (fun p => p.Channel)
      = (match a.Labels.lookup "users" with
         | none => []
         | some users => (splitComma (trimSpace users)).map (fun user => "@" ++ trimSpace user))
        ++ (match a.Labels.lookup "channels" with
         | none => []
         | some channels => (splitComma (trimSpace channels)).map (fun ch => trimSpace ch)) := by
  constructor
  · intro hu hc
    unfold Alert.toPayloads
    simp only [hu, hc]
    rfl
  · unfold Alert.toPayloads
    cases hu : a.Labels.lookup "users" <;> cases hc : a.Labels.lookup "channels" <;>
      simp [List.map_map, Function.comp_def]

/-- C8 witness: a known-labels alert and a label-free alert. -/
theorem toPayloads_recipients_witness :
    (Alert.toPayloads sampleCfg
        { Labels := [], Annotations := [], StartsAt := 0, EndsAt := 0, GeneratorURL := "u9" } = []) ∧
    (sampleAlert.toPayloads sampleCfg).map (fun p => p.Channel)
      = ["@bob", "@alice", "ops", "releases"] := by
  constructor
  · exact (toPayloads_recipients sampleCfg
      { Labels := [], Annotations := [], StartsAt := 0, EndsAt := 0, GeneratorURL := "u9" }).1
      rfl rfl
  · rw [(toPayloads_recipients sampleCfg sampleAlert).2]
    decide

/-- C9: a present-but-empty `users` label yields exactly one message for
that category, with recipient "@", ahead of any channel messages; a
present-but-empty `channels` label yields exactly one trailing message with
an empty recipient. -/
theorem toPayloads_empty_label (cfg : Config) (a : Alert) :
    (a.Labels.lookup "users" = some "" →
      (a.toPayloads cfg).map (fun p => p.Channel)
        = "@" :: (match a.Labels.lookup "channels" with
                  | none => []
                  | some channels => (splitComma (trimSpace channels)).map (fun ch => trimSpace ch))) ∧
    (a.Labels.lookup "channels" = some "" →
      (a.toPayloads cfg).map (fun p => p.Channel)
        = (match a.Labels.lookup "users" with
           | none => []
           | some users => (splitComma (trimSpace users)).map (fun user => "@" ++ trimSpace user))
          ++ [""]) := by
  constructor
  · intro hu
    rw [(toPayloads_recipients cfg a).2, hu]
    rfl
  · intro hc
    rw [(toPayloads_recipients cfg a).2, hc]
    rfl

/-- C9 witness: empty `users` label gives one "@" recipient; empty
`channels` label gives one "" recipient. -/
theorem toPayloads_empty_label_witness :
    (Alert.toPayloads sampleCfg
        { Labels := [("users", "")], Annotations := [], StartsAt := 0, EndsAt := 0,
          GeneratorURL := "u9" }).map (fun p => p.Channel) = ["@"] ∧
    (Alert.toPayloads sampleCfg
        { Labels := [("channels", "")], Annotations := [], StartsAt := 0, EndsAt := 0,
          GeneratorURL := "u9" }).map (fun p => p.Channel) = [""] := by
  constructor
  · exact (toPayloads_empty_label sampleCfg
      { Labels := [("users", "")], Annotations := [], StartsAt := 0, EndsAt := 0,
        GeneratorURL := "u9" }).1 rfl
  · exact (toPayloads_empty_label sampleCfg
      { Labels := [("channels", "")], Annotations := [], StartsAt := 0, EndsAt := 0,
        GeneratorURL := "u9" }).2 rfl

theorem notifyFold_eq (cfg : Config) (l : List AlertStatus) (acc : List Payload) :
    l.foldl (fun acc st => if st.TTL = 0 then acc ++ st.alert.toPayloads cfg else acc) acc
      = acc ++ (l.filter (fun st => st.TTL = 0)).flatMap (fun st => st.alert.toPayloads cfg) := by
  induction l generalizing acc with
  | nil => simp
  | cons st rest ih =>
    by_cases h : st.TTL = 0
    · simp [h, ih, List.filter_cons, List.append_assoc]
    · simp [h, ih, List.filter_cons]

/-- C4: one scheduler tick sends exactly the payloads of the `getAlerts`
entries whose effective TTL is 0, in order; entries with a non-zero TTL
(currently silenced) contribute no messages. -/
theorem alertTick_sends_eligible (parse : String → Option Alert) (cfg : Config) (s : Store) :
    (alertTick parse cfg s).2
      = ((getAlerts parse s).2.filter (fun st => st.TTL = 0)).flatMap
          (fun st => st.alert.toPayloads cfg) := by
  unfold alertTick
  simp [notifyFold_eq]

theorem upd_ne {α : Type} (f : String → α) (key u : String) (v : α) (h : u ≠ key) :
    upd f key v u = f u := by
  simp [upd, h]

theorem srem_hashes (s : Store) (m : String) : (s.srem m).hashes = s.hashes := rfl

theorem srem_ttls (s : Store) (m : String) : (s.srem m).ttls = s.ttls := rfl

theorem srem_not_mem_self (s : Store) (m : String) : m ∉ (s.srem m).alert_urls := by
  unfold Store.srem
  simp

theorem srem_mem_mono (s : Store) (m u : String) (h : u ∉ s.alert_urls) :
    u ∉ (s.srem m).alert_urls := by
  unfold Store.srem
  intro hmem
  exact h (List.mem_of_mem_filter hmem)

theorem processUrl_eq (parse : String → Option Alert) (s : Store) (url : String) :
    processUrl parse s url
      = (if (s.hmget2 url).1 = "" then (s.srem url, none)
         else
           match parse (s.hmget2 url).1 with
           | none => (s, none)
           | some a =>
             if (s.hmget2 url).2 ≠ "true" then (s, some { alert := a, TTL := 0 })
             else (s, some { alert := a, TTL := s.ttlCmd url })) := rfl

theorem getAlertsFrom_cons (parse : String → Option Alert) (url : String) (rest : List String)
    (s : Store) :
    getAlertsFrom parse (url :: rest) s
      = ((getAlertsFrom parse rest (processUrl parse s url).1).1,
         (processUrl parse s url).2.toList
           ++ (getAlertsFrom parse rest (processUrl parse s url).1).2) := rfl

theorem processUrl_hashes (parse : String → Option Alert) (s : Store) (url : String) :
    (processUrl parse s url).1.hashes = s.hashes := by
  rw [processUrl_eq]
  split
  · rfl
  · split
    · rfl
    · split <;> rfl

theorem processUrl_ttls (parse : String → Option Alert) (s : Store) (url : String) :
    (processUrl parse s url).1.ttls = s.ttls := by
  rw [processUrl_eq]
  split
  · rfl
  · split
    · rfl
    · split <;> rfl

theorem processUrl_mem_mono (parse : String → Option Alert) (s : Store) (url u : String)
    (h : u ∉ s.alert_urls) : u ∉ (processUrl parse s url).1.alert_urls := by
  rw [processUrl_eq]
  split
  · exact srem_mem_mono s url u h
  · split
    · exact h
    · split <;> exact h

theorem getAlertsFrom_hashes (parse : String → Option Alert) (l : List String) (s : Store) :
    (getAlertsFrom parse l s).1.hashes = s.hashes := by
  induction l generalizing s with
  | nil => rfl
  | cons url rest ih =>
    unfold getAlertsFrom
    rw [ih (processUrl parse s url).1, processUrl_hashes]

theorem getAlertsFrom_ttls (parse : String → Option Alert) (l : List String) (s : Store) :
    (getAlertsFrom parse l s).1.ttls = s.ttls := by
  induction l generalizing s with
  | nil => rfl
  | cons url rest ih =>
    unfold getAlertsFrom
    rw [ih (processUrl parse s url).1, processUrl_ttls]

theorem getAlertsFrom_mem_mono (parse : String → Option Alert) (l : List String) (s : Store)
    (u : String) (h : u ∉ s.alert_urls) : u ∉ (getAlertsFrom parse l s).1.alert_urls := by
  induction l generalizing s with
  | nil => exact h
  | cons url rest ih =>
    unfold getAlertsFrom
    exact ih (processUrl parse s url).1 (processUrl_mem_mono parse s url u h)

theorem getAlertsFrom_append (parse : String → Option Alert) (l1 l2 : List String) (s : Store) :
    getAlertsFrom parse (l1 ++ l2) s
      = ((getAlertsFrom parse l2 (getAlertsFrom parse l1 s).1).1,
         (getAlertsFrom parse l1 s).2 ++ (getAlertsFrom parse l2 (getAlertsFrom parse l1 s).1).2) := by
  induction l1 generalizing s with
  | nil => simp [getAlertsFrom]
  | cons url rest ih =>
    rw [List.cons_append, getAlertsFrom_cons, ih (processUrl parse s url).1,
      getAlertsFrom_cons]
    simp [List.append_assoc]

theorem hmget2_eq_of_hashes (s t : Store) (key : String) (h : t.hashes key = s.hashes key) :
    t.hmget2 key = s.hmget2 key := by
  unfold Store.hmget2
  rw [h]

theorem ttlCmd_eq_of_frame (s t : Store) (key : String) (hh : t.hashes key = s.hashes key)
    (ht : t.ttls key = s.ttls key) : t.ttlCmd key = s.ttlCmd key := by
  unfold Store.ttlCmd
  rw [hh, ht]

/-- C5: a known key whose stored payload is empty contributes nothing to the
`getAlerts` output and is removed from `alert_urls` by that same call; a key
whose payload fails to parse is skipped and the scan continues with the
remaining keys. -/
theorem getAlerts_prune_and_skip (parse : String → Option Alert) (s : Store)
    (pre post : List String) (url : String)
    (hurls : s.alert_urls = pre ++ url :: post) :
    ((s.hmget2 url).1 = "" →
      url ∉ (getAlerts parse s).1.alert_urls ∧
      (getAlerts parse s).2
        = (getAlertsFrom parse pre s).2
          ++ (getAlertsFrom parse post ((getAlertsFrom parse pre s).1.srem url)).2) ∧
    ((s.hmget2 url).1 ≠ "" → parse (s.hmget2 url).1 = none →
      (getAlerts parse s).2
        = (getAlertsFrom parse pre s).2
          ++ (getAlertsFrom parse post (getAlertsFrom parse pre s).1).2) := by
  have hmid : (getAlertsFrom parse pre s).1.hmget2 url = s.hmget2 url :=
    hmget2_eq_of_hashes s _ url (congrFun (getAlertsFrom_hashes parse pre s) url)
  constructor
  · intro hempty
    have hstep : processUrl parse (getAlertsFrom parse pre s).1 url
        = ((getAlertsFrom parse pre s).1.srem url, none) := by
      rw [processUrl_eq, hmid]
      simp [hempty]
    unfold getAlerts
    rw [hurls, getAlertsFrom_append, getAlertsFrom_cons, hstep]
    constructor
    · exact getAlertsFrom_mem_mono parse post _ url (srem_not_mem_self _ url)
    · rfl
  · intro hne hbad
    have hstep : processUrl parse (getAlertsFrom parse pre s).1 url
        = ((getAlertsFrom parse pre s).1, none) := by
      rw [processUrl_eq, hmid]
      simp [hne, hbad]
    unfold getAlerts
    rw [hurls, getAlertsFrom_append, getAlertsFrom_cons, hstep]
    rfl

/-- C5 witness: a three-key scan where the middle key has an empty payload
and the last key has an unparseable payload. -/
theorem getAlerts_prune_and_skip_witness :
    (Store.hmget2
        { alert_urls := ["a", "b"],
          hashes := fun k => if k = "a" then some { alert := some "", silence := some "false" }
                             else if k = "b" then some { alert := some "junk", silence := some "false" }
                             else none,
          ttls := fun _ => none } "a").1 = "" ∧
    "a" ∉ (getAlerts sampleParse
        { alert_urls := ["a", "b"],
          hashes := fun k => if k = "a" then some { alert := some "", silence := some "false" }
                             else if k = "b" then some { alert := some "junk", silence := some "false" }
                             else none,
          ttls := fun _ => none }).1.alert_urls ∧
    (getAlerts sampleParse
        { alert_urls := ["a", "b"],
          hashes := fun k => if k = "a" then some { alert := some "", silence := some "false" }
                             else if k = "b" then some { alert := some "junk", silence := some "false" }
                             else none,
          ttls := fun _ => none }).2 = [] := by
  refine ⟨by decide, ?_, ?_⟩
  · have h := (getAlerts_prune_and_skip sampleParse
      { alert_urls := ["a", "b"],
        hashes := fun k => if k = "a" then some { alert := some "", silence := some "false" }
                           else if k = "b" then some { alert := some "junk", silence := some "false" }
                           else none,
        ttls := fun _ => none } [] ["b"] "a" rfl).1 (by decide)
    exact h.1
  · have h := (getAlerts_prune_and_skip sampleParse
      { alert_urls := ["a", "b"],
        hashes := fun k => if k = "a" then some { alert := some "", silence := some "false" }
                           else if k = "b" then some { alert := some "junk", silence := some "false" }
                           else none,
        ttls := fun _ => none } ["a"] [] "b" rfl).2 (by decide) (by decide)
    rw [h]
    decide

/-- C6: a known key with a non-empty, parseable payload appears in the
`getAlerts` output exactly once, with TTL 0 when the stored silence flag is
not "true" and with the key's remaining store TTL when it is; when the
silenced key has no expiry, that remaining value is -1. -/
theorem getAlerts_entry (parse : String → Option Alert) (s : Store)
    (pre post : List String) (url : String) (a : Alert)
    (hurls : s.alert_urls = pre ++ url :: post)
    (hne : (s.hmget2 url).1 ≠ "")
    (hparse : parse (s.hmget2 url).1 = some a) :
    (getAlerts parse s).2
      = (getAlertsFrom parse pre s).2
        ++ [{ alert := a,
              TTL := if (s.hmget2 url).2 ≠ "true" then 0 else s.ttlCmd url }]
        ++ (getAlertsFrom parse post (getAlertsFrom parse pre s).1).2 ∧
    ((s.hmget2 url).2 = "true" → s.ttls url = none → s.ttlCmd url = -1) := by
  have hmid : (getAlertsFrom parse pre s).1.hmget2 url = s.hmget2 url :=
    hmget2_eq_of_hashes s _ url (congrFun (getAlertsFrom_hashes parse pre s) url)
  have hcmd : (getAlertsFrom parse pre s).1.ttlCmd url = s.ttlCmd url :=
    ttlCmd_eq_of_frame s _ url (congrFun (getAlertsFrom_hashes parse pre s) url)
      (congrFun (getAlertsFrom_ttls parse pre s) url)
  constructor
  · have hstep : processUrl parse (getAlertsFrom parse pre s).1 url
        = ((getAlertsFrom parse pre s).1,
           some { alert := a,
                  TTL := if (s.hmget2 url).2 ≠ "true" then 0 else s.ttlCmd url }) := by
      rw [processUrl_eq, hmid]
      simp only [hne, if_neg hne, hparse]
      by_cases hsil : (s.hmget2 url).2 = "true"
      · simp [hsil, hcmd]
      · simp [hsil]
    unfold getAlerts
    rw [hurls, getAlertsFrom_append, getAlertsFrom_cons, hstep]
    simp
  · intro _ hnottl
    have hk : (s.hashes url).isSome := by
      unfold Store.hmget2 at hne
      cases hh : s.hashes url
      · rw [hh] at hne; simp at hne
      · rfl
    rw [ttlCmd_of_some s url hk, hnottl]

/-- C6 witness: a non-silenced key reports TTL 0; a silenced key with no
expiry reports TTL -1. -/
theorem getAlerts_entry_witness :
    (getAlerts sampleParse
        { alert_urls := ["u1"],
          hashes := fun k => if k = "u1" then some { alert := some "json:u1", silence := some "false" } else none,
          ttls := fun _ => none }).2 = [{ alert := sampleAlert, TTL := 0 }] ∧
    (getAlerts sampleParse
        { alert_urls := ["u1"],
          hashes := fun k => if k = "u1" then some { alert := some "json:u1", silence := some "true" } else none,
          ttls := fun _ => none }).2 = [{ alert := sampleAlert, TTL := -1 }] := by
  constructor
  · have h := (getAlerts_entry sampleParse
      { alert_urls := ["u1"],
        hashes := fun k => if k = "u1" then some { alert := some "json:u1", silence := some "false" } else none,
        ttls := fun _ => none } [] [] "u1" sampleAlert rfl (by decide) (by decide)).1
    rw [h]
    decide
  · have h := getAlerts_entry sampleParse
      { alert_urls := ["u1"],
        hashes := fun k => if k = "u1" then some { alert := some "json:u1", silence := some "true" } else none,
        ttls := fun _ => none } [] [] "u1" sampleAlert rfl (by decide) (by decide)
    rw [h.1]
    have hm1 := h.2 (by decide) (by decide)
    rw [hm1]
    decide

theorem hset_alert_urls (s : Store) (key v : String) :
    (s.hsetSilence key v).alert_urls = s.alert_urls := rfl

theorem persist_alert_urls (s : Store) (key : String) :
    (s.persist key).alert_urls = s.alert_urls := rfl

theorem expire_alert_urls (s : Store) (key : String) (secs : Int) :
    (s.expire key secs).alert_urls = s.alert_urls := by
  unfold Store.expire
  split
  · rfl
  · split <;> rfl

theorem expire_hashes_ne (s : Store) (key : String) (secs : Int) (u : String) (h : u ≠ key) :
    (s.expire key secs).hashes u = s.hashes u := by
  unfold Store.expire
  split
  · rfl
  · split
    · exact upd_ne s.hashes key u none h
    · rfl

theorem expire_ttls_ne (s : Store) (key : String) (secs : Int) (u : String) (h : u ≠ key) :
    (s.expire key secs).ttls u = s.ttls u := by
  unfold Store.expire
  split
  · rfl
  · split
    · exact upd_ne s.ttls key u none h
    · exact upd_ne s.ttls key u (some secs) h

theorem silence_alert_urls (cfg : Config) (sil : Silence) (s : Store) :
    (sil.silence cfg s).alert_urls = s.alert_urls := by
  unfold Silence.silence
  split
  · rfl
  · split
    · rw [expire_alert_urls]
      rfl
    · rw [expire_alert_urls]
      rfl

theorem silence_hashes_ne (cfg : Config) (sil : Silence) (s : Store) (u : String)
    (h : u ≠ sil.URL) : (sil.silence cfg s).hashes u = s.hashes u := by
  have hset : (s.hsetSilence sil.URL "true").hashes u = s.hashes u :=
    upd_ne s.hashes sil.URL u _ h
  unfold Silence.silence
  split
  · exact hset
  · split
    · rw [expire_hashes_ne _ _ _ _ h]
      exact hset
    · rw [expire_hashes_ne _ _ _ _ h]
      exact hset

theorem silence_ttls_ne (cfg : Config) (sil : Silence) (s : Store) (u : String)
    (h : u ≠ sil.URL) : (sil.silence cfg s).ttls u = s.ttls u := by
  unfold Silence.silence
  split
  · exact upd_ne _ sil.URL u none h
  · split
    · exact expire_ttls_ne _ _ _ _ h
    · exact expire_ttls_ne _ _ _ _ h

theorem getAlertsFrom_congr (parse : String → Option Alert) (l : List String) (key : String)
    (hl : key ∉ l) :
    ∀ s t : Store, (∀ u, u ≠ key → t.hashes u = s.hashes u) →
      (∀ u, u ≠ key → t.ttls u = s.ttls u) →
      (getAlertsFrom parse l t).2 = (getAlertsFrom parse l s).2 := by
  induction l with
  | nil => intro s t _ _; rfl
  | cons url rest ih =>
    intro s t hh ht
    have hurl : url ≠ key := fun e => hl (e ▸ List.mem_cons_self url rest)
    have hget : t.hmget2 url = s.hmget2 url := hmget2_eq_of_hashes s t url (hh url hurl)
    have hcmd : t.ttlCmd url = s.ttlCmd url :=
      ttlCmd_eq_of_frame s t url (hh url hurl) (ht url hurl)
    have hrest : key ∉ rest := fun e => hl (List.mem_cons_of_mem url e)
    rw [getAlertsFrom_cons, getAlertsFrom_cons, processUrl_eq, processUrl_eq, hget, hcmd]
    split
    · simpa using ih hrest (s.srem url) (t.srem url) hh ht
    · split
      · simpa using ih hrest s t hh ht
      · split
        · simpa using ih hrest s t hh ht
        · simpa using ih hrest s t hh ht

/-- C10: `Silence.silence` never adds a key to `alert_urls` (only
`Alert.save` does); silencing a key that was never saved mutates the store —
the key's hash gets silence flag "true" — yet the `getAlerts` output is
unchanged, so the key never appears in any list result. -/
theorem silence_unknown_key (parse : String → Option Alert) (cfg : Config) (sil : Silence)
    (s : Store) :
    (sil.silence cfg s).alert_urls = s.alert_urls ∧
    (sil.URL ∉ s.alert_urls →
      (getAlerts parse (sil.silence cfg s)).2 = (getAlerts parse s).2) ∧
    (0 < cfg.silenceDuration →
      (sil.silence cfg s).hgetSilence sil.URL = some "true") := by
  refine ⟨silence_alert_urls cfg sil s, ?_, ?_⟩
  · intro hmem
    unfold getAlerts
    rw [silence_alert_urls cfg sil s]
    exact getAlertsFrom_congr parse s.alert_urls sil.URL hmem s (sil.silence cfg s)
      (fun u hu => silence_hashes_ne cfg sil s u hu)
      (fun u hu => silence_ttls_ne cfg sil s u hu)
  · intro hpos
    have hflag : (s.hsetSilence sil.URL "true").hgetSilence sil.URL = some "true" :=
      hset_hgetSilence_self s _ _
    unfold Silence.silence
    split
    · exact hflag
    · split
      · unfold Store.hgetSilence
        rw [congrFun (expire_pos_hashes _ sil.URL cfg.silenceDuration hpos) sil.URL]
        exact hflag
      · rename_i hneg hzero
        have hdpos : 0 < sil.Duration := by omega
        unfold Store.hgetSilence
        rw [congrFun (expire_pos_hashes _ sil.URL sil.Duration hdpos) sil.URL]
        exact hflag

/-- C10 witness: silencing a never-saved key leaves `alert_urls` and the
list output unchanged while creating the silenced hash. -/
theorem silence_unknown_key_witness :
    (((Silence.mk "ghost" 5).silence sampleCfg emptyStore).alert_urls = ([] : List String)) ∧
    (getAlerts sampleParse ((Silence.mk "ghost" 5).silence sampleCfg emptyStore)).2
      = (getAlerts sampleParse emptyStore).2 ∧
    ((Silence.mk "ghost" 5).silence sampleCfg emptyStore).hgetSilence "ghost" = some "true" := by
  have h := silence_unknown_key sampleParse sampleCfg (Silence.mk "ghost" 5) emptyStore
  exact ⟨h.1, h.2.1 (by decide), h.2.2 (by decide)⟩

end Molert
